import Mathlib

/-!
Shallow embedding of the format parsers of `src/bangunpack.py` (the BANG
carvers/verifiers), together with theorems settling the frozen claims about
the natural-language specification of that file.

A file is modelled as a `List Nat` of byte values; a parse works on
`(data, offset)` where `offset` is the base offset handed to the parser and
`data.length` plays the role of `os.stat(filename).st_size`.  Python file
reads are modelled by `readBytes` (a read near end of file returns fewer
bytes, exactly as `file.read(n)` does).  Python `int` arithmetic is on `Nat`;
where a Python expression can go negative, the comparison is rewritten into
an equivalent addition form over integers and noted at the use site.

External collaborators that are not part of this repository (zlib / PIL /
tarfile / the `unsquashfs`, `bmptopnm` subprocesses) are modelled from the
spec, as parameters or as explicitly documented model definitions; everything
else is translated line by line from the source.
-/

/-- Bytes returned by `file.read(n)` issued at absolute position `pos`:
at most `n` bytes, truncated at end of file. -/
def readBytes (data : List Nat) (pos n : Nat) : List Nat :=
  (data.drop pos).take n

/-- Number of bytes such a read actually returns (`len(checkbytes)`). -/
def readLen (data : List Nat) (pos n : Nat) : Nat :=
  min n (data.length - pos)

/-- Single byte at an absolute position, 0 beyond end of data. -/
def byteAt (data : List Nat) (pos : Nat) : Nat :=
  data.getD pos 0

/-- Python `int.from_bytes(bs, byteorder='big')`. -/
def intFromBytesBE (bs : List Nat) : Nat :=
  bs.foldl (fun a b => a * 256 + b) 0

/-- Python `int.from_bytes(bs, byteorder='little')`. -/
def intFromBytesLE (bs : List Nat) : Nat :=
  intFromBytesBE bs.reverse

/-- Python `os.path.join` for two components: an absolute second component
replaces the first (the only cases the source exercises). -/
def pjoin (a b : String) : String :=
  match b.data with
  | '/' :: _ => b
  | _ => a ++ "/" ++ b

/-- Helper for `pbasename`: keep the characters after the last slash. -/
def basenameAux : List Char → List Char → List Char
  | [], acc => acc.reverse
  | c :: rest, acc => if c = '/' then basenameAux rest [] else basenameAux rest (c :: acc)

/-- Python `os.path.basename`. -/
def pbasename (s : String) : String :=
  String.mk (basenameAux s.data [])

/-- Python `s.endswith(t)`. -/
def endsWithStr (s t : String) : Bool :=
  t.data.isSuffixOf s.data

/-- Python `s[:-n]` for a string known to be at least `n` characters. -/
def dropRightStr (s : String) (n : Nat) : String :=
  String.mk (s.data.take (s.data.length - n))

/-- Python `bytes.decode()` restricted to the byte values the witnesses use. -/
def strOfBytes (bs : List Nat) : String :=
  String.mk (bs.map fun b => Char.ofNat b)

/-- ASCII `str.lower()`. -/
def asciiLower (s : String) : String :=
  String.mk (s.data.map fun c => if c.isUpper then Char.ofNat (c.toNat + 32) else c)

/-- One bit step of the reflected CRC-32 (polynomial 0xEDB88320). -/
def crc32Step (c : Nat) : Nat :=
  if c % 2 = 1 then (c / 2) ^^^ 0xEDB88320 else c / 2

/-- One byte step of CRC-32. -/
def crc32Byte (c b : Nat) : Nat :=
  crc32Step (crc32Step (crc32Step (crc32Step
    (crc32Step (crc32Step (crc32Step (crc32Step (c ^^^ b % 256))))))))

/-- Python `zlib.crc32(bs, prev)` / `binascii.crc32(bs, prev)`;
`crc32 0 bs` is the plain one-argument form. -/
def crc32 (prev : Nat) (bs : List Nat) : Nat :=
  (bs.foldl crc32Byte ((prev % 2 ^ 32) ^^^ 0xFFFFFFFF)) ^^^ 0xFFFFFFFF

/-- The error dict every parser returns on failure:
`{'offset': ..., 'reason': ..., 'fatal': ...}`. -/
structure UnpackError where
  offset : Nat
  reason : String
  fatal : Bool
deriving DecidableEq

/-- The uniform five-tuple a parser returns:
`(unpackstatus, unpackedsize, unpackedfilesandlabels, labels, error)`.
`error = none` models the empty dict `{}`. -/
structure UnpackResult where
  ok : Bool
  unpackedsize : Nat
  unpackedfilesandlabels : List (String × List String)
  labels : List String
  error : Option UnpackError
deriving DecidableEq

/-- Outcome of running a parser under Python semantics: either the returned
tuple, or an exception escaping the call. -/
inductive PyResult where
  | ret (r : UnpackResult)
  | raised (exn : String)
deriving DecidableEq

/-- Result of the RIFF helper `unpackRIFF`: its third component is a plain
list of file names (the wrappers attach the labels). -/
structure RiffResult where
  ok : Bool
  unpackedsize : Nat
  unpackedfiles : List String
  labels : List String
  error : Option UnpackError
deriving DecidableEq

/-- Outcome of the RIFF chunk-walking loop (source lines 147-183). -/
inductive RiffLoop where
  | fail (erroffset : Nat) (reason : String)
  | success (u : Nat)
deriving DecidableEq

/-- The RIFF chunk loop: `while checkfile.tell() != offset + rifflength + 8`.
`pos` is the absolute file position, `u` the running `unpackedsize`,
`target = offset + rifflength + 8`.  The fuel argument only guards
termination; each iteration advances `pos` by at least 8 bytes and reads
clamp at end of file, so `data.length + 2` iterations are never exhausted
before the loop exits on its own. -/
def riffChunkLoop (data : List Nat) (offset target : Nat) (valid : List (List Nat)) :
    Nat → Nat → Nat → RiffLoop
  | 0, _, _ => .fail 0 "riff loop fuel exhausted"
  | fuel + 1, pos, u =>
    if pos = target then .success u
    else
      if readLen data pos 4 ≠ 4 then .fail (offset + u) "no valid chunk header"
      else
        let fourcc := readBytes data pos 4
        if fourcc ∉ valid then .fail (offset + u) "no valid chunk FourCC"
        else
          -- chunk size (the source performs no length check on this read)
          let rawlen := intFromBytesLE (readBytes data (pos + 4) 4)
          let haspadding := rawlen % 2 ≠ 0
          let chunklength := if haspadding then rawlen + 1 else rawlen
          let curpos := min (pos + 8) data.length
          if chunklength > data.length - curpos then .fail (offset + u + 4) "wrong chunk length"
          else
            if haspadding ∧ readBytes data (curpos + chunklength - 1) 1 ≠ [0] then
              .fail (offset + u + 8) "wrong value for padding byte length"
            else
              riffChunkLoop data offset target valid fuel (curpos + chunklength) (u + 8 + chunklength)

/-- Embedding of `unpackRIFF` (source lines 109-205). -/
def unpackRIFF (data : List Nat) (offset : Nat) (unpackdir : String)
    (validchunkfourcc : List (List Nat)) (applicationname : String)
    (applicationheader : List Nat) : RiffResult :=
  let filesize := data.length
  if filesize - offset < 12 then
    ⟨false, 0, [], [], some ⟨offset, "less than 12 bytes", false⟩⟩
  else
    if readBytes data offset 4 ≠ [82, 73, 70, 70] then
      ⟨false, 0, [], [], some ⟨offset, "no valid RIFF header", false⟩⟩
    else
      let rifflength := intFromBytesLE (readBytes data (offset + 4) 4)
      -- the source compares against filesize, not filesize - offset
      if rifflength + 8 > filesize then
        ⟨false, 0, [], [], some ⟨offset + 4, "wrong length", false⟩⟩
      else
        if readBytes data (offset + 8) 4 ≠ applicationheader then
          ⟨false, 0, [], [], some ⟨offset + 8, "no valid " ++ applicationname ++ " header", false⟩⟩
        else
          match riffChunkLoop data offset (offset + rifflength + 8) validchunkfourcc
              (data.length + 2) (offset + 12) 12 with
          | .fail eo reason => ⟨false, 0, [], [], some ⟨eo, reason, false⟩⟩
          | .success u =>
            if u ≠ rifflength + 8 then
              ⟨false, 0, [], [], some ⟨offset, "unpacked size does not match declared size", false⟩⟩
            else
              if offset = 0 ∧ u = filesize then
                ⟨true, u, [], ["riff"], none⟩
              else
                ⟨true, u, [pjoin unpackdir ("unpacked-" ++ asciiLower applicationname)], [], none⟩

/-- The WAV chunk FourCC allow-list (source line 95). -/
def wavFourcc : List (List Nat) :=
  [[76, 71, 87, 86], [98, 101, 120, 116], [99, 117, 101, 32], [100, 97, 116, 97],
   [102, 97, 99, 116], [102, 109, 116, 32], [105, 110, 115, 116], [108, 97, 98, 108],
   [108, 105, 115, 116], [108, 116, 120, 116], [110, 111, 116, 101], [112, 108, 115, 116],
   [115, 109, 112, 108]]

/-- Embedding of `unpackWAV` (source lines 90-102). -/
def unpackWAV (data : List Nat) (offset : Nat) (unpackdir : String) : UnpackResult :=
  let r := unpackRIFF data offset unpackdir wavFourcc "WAV" [87, 65, 86, 69]
  if r.ok then
    ⟨r.ok, r.unpackedsize,
     r.unpackedfiles.map (fun u => (u, ["wav", "audio", "unpacked"])),
     r.labels ++ (if offset = 0 ∧ r.unpackedsize = data.length then ["wav", "audio"] else []),
     r.error⟩
  else
    ⟨r.ok, r.unpackedsize, [], r.labels, r.error⟩

/-- Outcome of the PNG chunk loop (source lines 271-314).  Both outcomes carry
the list of `(position of the size field, declared chunk size)` pairs of the
chunks the loop looked at, used to state the bounds claim. -/
inductive PngLoop where
  | fail (erroffset : Nat) (reason : String) (trace : List (Nat × Nat))
  | success (u : Nat) (idat : Bool) (names : List (List Nat)) (trace : List (Nat × Nat))
deriving DecidableEq

/-- The trace component of a `PngLoop` outcome. -/
def pngTrace : PngLoop → List (Nat × Nat)
  | .fail _ _ t => t
  | .success _ _ _ t => t

/-- The PNG chunk loop (source lines 271-314).  `pos` is the absolute file
position at the top of the loop, `u` the running `unpackedsize`.  Reads clamp
at end of file; each iteration advances `pos` by at least 12 bytes, so the
fuel of `data.length + 2` passed by `pngChunksOf` is never exhausted before
the loop exits by itself. -/
def pngChunkLoop (data : List Nat) (offset : Nat) :
    Nat → Nat → Nat → Bool → List (List Nat) → List (Nat × Nat) → PngLoop
  | 0, _, _, _, _, acc => .fail 0 "png loop fuel exhausted" acc
  | fuel + 1, pos, u, idat, names, acc =>
    if readLen data pos 4 ≠ 4 then .fail (offset + u) "Could not read chunk size" acc
    else
      let chunksize := intFromBytesBE (readBytes data pos 4)
      let acc2 := acc ++ [(pos, chunksize)]
      -- the source checks against offset, not against the current position
      if offset + chunksize > data.length then
        .fail (offset + u) "PNG data bigger than file" acc2
      else
        if readLen data (pos + 4) (4 + chunksize) ≠ 4 + chunksize then
          .fail (offset + u + 4) "Could not read chunk type" acc2
        else
          let typeAndData := readBytes data (pos + 4) (4 + chunksize)
          let chunktype := typeAndData.take 4
          -- the CRC read is not length-checked in the source; a short read
          -- yields the big-endian value of the bytes that were available
          let crccomputed := crc32 0 typeAndData
          let crcstored := intFromBytesBE (readBytes data (pos + 8 + chunksize) 4)
          if crccomputed ≠ crcstored then
            .fail (offset + u + 8 + chunksize) "Wrong CRC" acc2
          else
            let names2 := if chunktype ∈ names then names else chunktype :: names
            if chunktype = [73, 69, 78, 68] then
              .success (u + 12 + chunksize) idat names2 acc2
            else
              pngChunkLoop data offset fuel (min (pos + 12 + chunksize) data.length)
                (u + 12 + chunksize) (idat ∨ chunktype = [73, 68, 65, 84]) names2 acc2

/-- The chunk loop as `unpackPNG` runs it: it starts right after the 25-byte
IHDR chunk, at absolute position `offset + 33` with `unpackedsize = 33`. -/
def pngChunksOf (data : List Nat) (offset : Nat) : PngLoop :=
  pngChunkLoop data offset (data.length + 2) (offset + 33) 33 false [] []

/-- Embedding of `unpackPNG` (source lines 228-371).  `pil` models the
`PIL.Image` validation pass, an external library: it receives the byte run
the image library would see and reports acceptance (spec section 4.3 allows
an implementation to skip this pass, which corresponds to `pil` constantly
true). -/
def unpackPNG (pil : List Nat → Bool) (data : List Nat) (offset : Nat)
    (unpackdir : String) : UnpackResult :=
  let filesize := data.length
  if filesize - offset < 57 then
    ⟨false, 0, [], [], some ⟨offset, "File too small (less than 57 bytes", false⟩⟩
  else
    let ihdr := readBytes data (offset + 8) 25
    if ihdr.take 4 ≠ [0, 0, 0, 13] then
      ⟨false, 0, [], [], some ⟨offset + 8, "no valid chunk length", false⟩⟩
    else
      if (ihdr.drop 4).take 4 ≠ [73, 72, 68, 82] then
        ⟨false, 0, [], [], some ⟨offset + 8, "no IHDR header", false⟩⟩
      else
        if crc32 0 ((ihdr.drop 4).take 17) ≠ intFromBytesBE ((ihdr.drop 21).take 4) then
          ⟨false, 0, [], [], some ⟨offset + 8, "Wrong CRC", false⟩⟩
        else
          match pngChunksOf data offset with
          | .fail eo reason _ => ⟨false, 0, [], [], some ⟨eo, reason, false⟩⟩
          | .success u idat names _ =>
            if ¬ idat then
              ⟨false, 0, [], [], some ⟨offset, "No IDAT found", false⟩⟩
            else
              let animated :=
                [97, 99, 84, 76] ∈ names ∧ [102, 99, 84, 76] ∈ names ∧ [102, 100, 65, 84] ∈ names
              if offset = 0 ∧ u = filesize then
                if pil (readBytes data offset u) then
                  ⟨true, u, [],
                   ["png", "graphics"] ++ (if animated then ["animated", "apng"] else []), none⟩
                else
                  ⟨false, u, [], [], some ⟨offset, "invalid PNG data according to PIL", false⟩⟩
              else
                if pil (readBytes data offset u) then
                  ⟨true, u,
                   [(pjoin unpackdir "unpacked.png",
                     if animated then ["png", "graphics", "animated", "apng", "unpacked"]
                     else ["png", "graphics", "unpacked"])], [], none⟩
                else
                  ⟨false, u, [], [], some ⟨offset, "invalid PNG data according to PIL", false⟩⟩

/-- A minimal 57-byte PNG: signature, IHDR for a 1x1 8-bit grayscale image,
an empty IDAT chunk and IEND, all with valid CRC-32 values. -/
def pngMin : List Nat :=
  [137, 80, 78, 71, 13, 10, 26, 10,
   0, 0, 0, 13, 73, 72, 68, 82, 0, 0, 0, 1, 0, 0, 0, 1, 8, 0, 0, 0, 0, 58, 126, 155, 85,
   0, 0, 0, 0, 73, 68, 65, 84, 53, 175, 6, 30,
   0, 0, 0, 0, 73, 69, 78, 68, 174, 66, 96, 130]

/-- Size of the read window of the gzip decompression loop
(`readsize = 10000000`, source line 541). -/
def BUFLEN : Nat := 10000000

/-- State of the streaming raw-DEFLATE decoder between feeds.

Modelled from the spec: the decoder itself is zlib, an external library; the
spec (sections 4.4 and 9) only requires a streaming DEFLATE decoder that
reports residual input bytes after the end of the stream.  The model decodes
stored (`BTYPE = 00`) blocks - enough for every input considered here - and
treats any other block type as a decode error. -/
inductive DState where
  | start : DState
  | lit (n : Nat) (final : Bool) : DState
  | done : DState
deriving DecidableEq

/-- Bytes `[i, i+n)` of the feed buffer.  The buffer is the freshly read data
followed by the zero fill of the `bytearray(readsize)` buffer, so positions
beyond the read data yield 0. -/
def bufSlice (real : List Nat) (i n : Nat) : List Nat :=
  (List.range n).map fun k => byteAt real (i + k)

/-- One feed of the modelled DEFLATE decoder, processing the buffer from
index `i`.  Returns `(output, end-of-stream position if reached, decode
error flag, state for the next feed)`.  The fuel only guards termination:
every pass through `.start` consumes at least 5 buffer bytes or fails, and
the zero fill beyond the read data never forms a valid non-final block, so
`real.length + 8` is never exhausted on inputs whose stream is decidable at
all. -/
def dfeedAux (real : List Nat) : Nat → Nat → DState → (List Nat × Option Nat × Bool × DState)
  | 0, _, st => ([], none, true, st)
  | fuel + 1, i, st =>
    match st with
    | .done => ([], some i, false, .done)
    | .lit n final =>
      if n ≤ BUFLEN - i then
        let out1 := bufSlice real i n
        if final then (out1, some (i + n), false, .done)
        else
          match dfeedAux real fuel (i + n) .start with
          | (o, e, d, s) => (out1 ++ o, e, d, s)
      else (bufSlice real i (BUFLEN - i), none, false, .lit (n - (BUFLEN - i)) final)
    | .start =>
      if BUFLEN ≤ i then ([], none, false, .start)
      else
        let b := byteAt real i
        if b / 2 % 4 ≠ 0 then ([], none, true, .start)
        else if BUFLEN < i + 5 then ([], none, true, .start)
        else
          let len := byteAt real (i + 1) + 256 * byteAt real (i + 2)
          let nlen := byteAt real (i + 3) + 256 * byteAt real (i + 4)
          if nlen ≠ 0xFFFF - len then ([], none, true, .start)
          else dfeedAux real fuel (i + 5) (.lit len (b % 2 == 1))

/-- One call of `decompressor.decompress(checkbytes)` on a full window. -/
def dfeed (real : List Nat) (st : DState) : List Nat × Option Nat × Bool × DState :=
  dfeedAux real (real.length + 8) 0 st

/-- Outcome of the gzip decompression loop (source lines 543-559): either the
exception-cleanup path with the `unpackedsize` current when `decompress`
raised, or the loop finished with the final `unpackedsize`, the decompressed
bytes written to the output file, and the running CRC-32. -/
inductive GzLoopRes where
  | derr (u : Nat)
  | done (u : Nat) (out : List Nat) (crc : Nat)
deriving DecidableEq

/-- The gzip decompression loop (source lines 543-559).  `pos` is the file
position of `readinto`, `u` the running `unpackedsize` advanced by
`len(checkbytes) - len(decompressor.unused_data)` where `len(checkbytes)` is
always `BUFLEN`.  The zero fill of the reused buffer is modelled per
iteration (exact for the first feed; later feeds of the source reuse stale
buffer bytes, which no input considered here reaches).  The fuel guards the
loop that the source runs unboundedly; it is never exhausted for inputs
whose DEFLATE stream ends inside the file. -/
def gzipLoop (data : List Nat) : Nat → Nat → DState → Nat → List Nat → Nat → GzLoopRes
  | 0, _, _, u, _, _ => .derr u
  | fuel + 1, pos, st, u, out, crc =>
    let real := readBytes data pos BUFLEN
    match dfeed real st with
    | (o, e, derr2, st2) =>
      if derr2 then .derr u
      else
        match e with
        | some en =>
          if BUFLEN - en ≠ 0 then .done (u + (BUFLEN - (BUFLEN - en))) (out ++ o) (crc32 crc o)
          else gzipLoop data fuel (min (pos + BUFLEN) data.length) st2
            (u + BUFLEN) (out ++ o) (crc32 crc o)
        | none =>
          gzipLoop data fuel (min (pos + BUFLEN) data.length) st2
            (u + BUFLEN) (out ++ o) (crc32 crc o)

/-- Scan of a NUL-terminated field (`FNAME` / `FCOMMENT`, source lines
468-495): one byte per iteration until a `0x00`, failing on a short read.
Returns the collected bytes and the new `(pos, unpackedsize)`.  Fuel
`data.length + 1` always outlasts the scan. -/
def gzScanNul (data : List Nat) (offset : Nat) (reason : String) :
    Nat → Nat → Nat → Except UnpackError (List Nat × Nat × Nat)
  | 0, _, u => .error ⟨offset + u, reason, false⟩
  | fuel + 1, pos, u =>
    if readLen data pos 1 ≠ 1 then .error ⟨offset + u, reason, false⟩
    else
      let b := byteAt data pos
      if b = 0 then .ok ([], pos + 1, u + 1)
      else
        match gzScanNul data offset reason fuel (pos + 1) (u + 1) with
        | .error e => .error e
        | .ok (nm, p2, u2) => .ok (b :: nm, p2, u2)

/-- Optional gzip header fields after the fixed part (source lines 465-517):
FNAME, FCOMMENT, the CRC16 skip, and the peek at the first DEFLATE byte.
Returns `(pos, unpackedsize, havefname, origname)`. -/
def gzipHeaderTail (data : List Nat) (offset pos u flags : Nat) :
    Except UnpackError (Nat × Nat × Bool × List Nat) :=
  let fnameRes :=
    if flags / 8 % 2 = 1 then
      gzScanNul data offset "file name data outside of file" (data.length + 1) pos u
    else .ok ([], pos, u)
  match fnameRes with
  | .error e => .error e
  | .ok (origname, pos2, u2) =>
    let comRes :=
      if flags / 16 % 2 = 1 then
        gzScanNul data offset "comment data outside of file" (data.length + 1) pos2 u2
      else .ok ([], pos2, u2)
    match comRes with
    | .error e => .error e
    | .ok (_, pos3, u3) =>
      let pos4 := if flags / 2 % 2 = 1 then pos3 + 2 else pos3
      let u4 := if flags / 2 % 2 = 1 then u3 + 2 else u3
      if readLen data pos4 1 ≠ 1 then .error ⟨offset + u4, "not enough data", false⟩
      else
        let b := byteAt data pos4
        if b / 2 % 2 = 1 ∧ b / 4 % 2 = 1 then
          .error ⟨offset + u4, "wrong DEFLATE header", false⟩
        else .ok (pos4, u4, flags / 8 % 2 == 1, origname)

/-- The gzip header scan (source lines 391-517), from the flags byte at
`offset + 3` up to and including the DEFLATE-header peek.  The FEXTRA branch
is embedded as written even though it is unreachable: bit 2 of the flags
byte was already rejected as "unsupported multi-part gzip" (the
contradiction flagged as open question 1 of the spec).  Note that the source
adds `xlen` to `unpackedsize` in that branch without advancing the file
position. -/
def gzipHeaderScan (data : List Nat) (offset : Nat) :
    Except UnpackError (Nat × Nat × Bool × List Nat) :=
  let filesize := data.length
  if readLen data (offset + 3) 1 ≠ 1 then .error ⟨offset + 3, "not enough data", false⟩
  else
    let flags := byteAt data (offset + 3)
    if flags / 4 % 2 = 1 then .error ⟨offset + 3, "unsupported multi-part gzip", false⟩
    else if flags / 32 % 2 = 1 then .error ⟨offset + 3, "unsupported encrypted", false⟩
    else if flags / 64 % 2 = 1 ∨ flags / 128 % 2 = 1 then
      .error ⟨offset + 3, "not a valid gzip file", false⟩
    else
      -- skip MTIME (4 bytes) and XFL/OS (2 bytes): u = 10
      if flags / 4 % 2 = 1 then
        if readLen data (offset + 10) 2 ≠ 2 then .error ⟨offset + 10, "not enough data", false⟩
        else
          let xlen := intFromBytesLE (readBytes data (offset + 10) 2)
          if offset + 12 + xlen > filesize then
            .error ⟨offset + 10, "extra data outside of file", false⟩
          else gzipHeaderTail data offset (offset + 12) (10 + xlen + 2) flags
      else gzipHeaderTail data offset (offset + 10) 10 flags

/-- The directory contents after a parser returns: file name to content. -/
abbrev FS := List (String × List Nat)

/-- Look a file up in the modelled directory. -/
def fsLookup (fs : FS) (name : String) : Option (List Nat) :=
  (fs.find? fun p => p.1 == name).map Prod.snd

/-- `os.unlink`, restricted to the modelled directory. -/
def fsRemove (fs : FS) (name : String) : FS :=
  fs.filter fun p => p.1 != name

/-- The gzip trailer handling after the decompression loop (source lines
562-608).  The source reads the stored CRC-32 (line 574) but never compares
it to the running CRC of the decompressed data; only ISIZE is validated.
The `no CRC and ISIZE` and `wrong value for ISIZE` failure returns do not
unlink the output file, so it stays in the returned directory state.
The condition `filesize - unpackedsize + offset < 8` is rewritten as
`filesize + offset < u + 8`, its equivalent over unlimited integers. -/
def gzipFinish (data : List Nat) (offset : Nat) (unpackdir outfilename : String)
    (havefname : Bool) (origname : List Nat) (u : Nat) (out : List Nat) :
    UnpackResult × FS :=
  let filesize := data.length
  if filesize + offset < u + 8 then
    (⟨false, 0, [], [], some ⟨offset + u, "no CRC and ISIZE", false⟩⟩, [(outfilename, out)])
  else
    -- the 4 stored CRC bytes at offset + u are read and discarded
    let isizebytes := readBytes data (offset + u + 4) 4
    if intFromBytesLE isizebytes ≠ out.length % 2 ^ 32 then
      (⟨false, 0, [], [], some ⟨offset + u + 8, "wrong value for ISIZE", false⟩⟩,
       [(outfilename, out)])
    else
      let finalname :=
        if havefname ∧ origname ≠ [] then pjoin unpackdir (strOfBytes origname)
        else outfilename
      (⟨true, u + 8, [(finalname, [])],
        if offset = 0 ∧ offset + (u + 8) = filesize then ["gzip", "compressed"] else [],
        none⟩,
       [(finalname, out)])

/-- Embedding of `unpackGzip` (source lines 384-608), returning the parser
tuple together with the files left in the unpack directory.  On the
decompress-exception path the source unlinks
`os.path.join(unpackdir, outfilename)` where `outfilename` is already a
joined path; with an absolute unpack directory the join collapses and the
output file is removed. -/
def unpackGzip (filename : String) (data : List Nat) (offset : Nat)
    (unpackdir : String) : UnpackResult × FS :=
  match gzipHeaderScan data offset with
  | .error e => (⟨false, 0, [], [], some e⟩, [])
  | .ok (pos, u, havefname, origname) =>
    let outfilename :=
      if endsWithStr filename ".gz" then pjoin unpackdir (dropRightStr (pbasename filename) 3)
      else pjoin unpackdir "unpacked-from-gz"
    match gzipLoop data (data.length + 3) pos .start u [] (crc32 0 []) with
    | .derr u2 =>
      (⟨false, 0, [], [], some ⟨offset + u2, "File not a valid gzip file", false⟩⟩,
       fsRemove [(outfilename, [])] (pjoin unpackdir outfilename))
    | .done u2 out _ => gzipFinish data offset unpackdir outfilename havefname origname u2 out

/-- Gzip input: empty flags, one stored DEFLATE block containing the byte
`A`, correct trailer CRC and correct ISIZE. -/
def gzGood : List Nat :=
  [0x1f, 0x8b, 8, 0, 0, 0, 0, 0, 0, 3,
   1, 1, 0, 0xfe, 0xff, 65,
   0x8b, 0x9e, 0xd9, 0xd3, 1, 0, 0, 0]

/-- Same member but the stored ISIZE is 2 while one byte was decompressed. -/
def gzBadIsize : List Nat :=
  [0x1f, 0x8b, 8, 0, 0, 0, 0, 0, 0, 3,
   1, 1, 0, 0xfe, 0xff, 65,
   0x8b, 0x9e, 0xd9, 0xd3, 2, 0, 0, 0]

/-- Same member but the stored trailer CRC-32 bytes are zero (wrong: the CRC
of the decompressed byte is 0xD3D99E8B) while ISIZE is correct. -/
def gzBadCrc : List Nat :=
  [0x1f, 0x8b, 8, 0, 0, 0, 0, 0, 0, 3,
   1, 1, 0, 0xfe, 0xff, 65,
   0, 0, 0, 0, 1, 0, 0, 0]

/-- The eight fields the TZif header scan produces: the `unpackedsize` after
the header and the seven header values (source lines 876-930 / 1054-1119). -/
structure TZHeader where
  u : Nat
  version : Nat
  ut_indicators : Nat
  standard_indicators : Nat
  leap_cnt : Nat
  transition_times : Nat
  local_times : Nat
  tz_abbrevation_bytes : Nat
deriving DecidableEq

/-- One TZif header.  For the first header (`second = false`) the magic was
matched by the caller and is skipped (`u` starts at `u0 + 4`); the second
header (`second = true`) checks the magic, restricts the version to 2/3 and
compares it with the first header's version.  Errors carry the
`unpackedsize` to return along with the error dict. -/
def tzHeader (data : List Nat) (offset : Nat) (second : Bool) (firstVersion : Nat)
    (u0 : Nat) : Except (Nat × UnpackError) TZHeader :=
  let magicOk : Except (Nat × UnpackError) Unit :=
    if second then
      if readBytes data (offset + u0) 4 ≠ [84, 90, 105, 102] then
        .error (u0, ⟨offset + u0, "invalid magic for version 2 header", false⟩)
      else .ok ()
    else .ok ()
  match magicOk with
  | .error e => .error e
  | .ok _ =>
    let u1 := u0 + 4
    let vb := byteAt data (offset + u1)
    let version? : Option Nat :=
      if second then
        if vb = 0x32 then some 2 else if vb = 0x33 then some 3 else none
      else
        if vb = 0 then some 0 else if vb = 0x32 then some 2 else if vb = 0x33 then some 3
        else none
    match version? with
    | none => .error (u1, ⟨offset + u1, "invalid version", false⟩)
    | some version =>
      if second ∧ version ≠ firstVersion then
        .error (u1, ⟨offset + u1, "versions in headers don\x27t match", false⟩)
      else
        let u2 := u1 + 1
        if readBytes data (offset + u2) 15 ≠ List.replicate 15 0 then
          .error (u2, ⟨offset + u2, "reserved bytes not 0", false⟩)
        else
          let u3 := u2 + 15
          let ut_indicators := intFromBytesBE (readBytes data (offset + u3) 4)
          let standard_indicators := intFromBytesBE (readBytes data (offset + u3 + 4) 4)
          let leap_cnt := intFromBytesBE (readBytes data (offset + u3 + 8) 4)
          let transition_times := intFromBytesBE (readBytes data (offset + u3 + 12) 4)
          let local_times := intFromBytesBE (readBytes data (offset + u3 + 16) 4)
          if local_times = 0 then
            .error (u3 + 20, ⟨offset + u3 + 20, "local of times set to not-permitted 0", false⟩)
          else
            let tz_abbrevation_bytes := intFromBytesBE (readBytes data (offset + u3 + 20) 4)
            .ok ⟨u3 + 24, version, ut_indicators, standard_indicators, leap_cnt,
                 transition_times, local_times, tz_abbrevation_bytes⟩

/-- A TZif loop reading `count` fixed-width records with only a short-read
check per record (transition times, standard/wall and UT/local indicators). -/
def tzLoopRead (data : List Nat) (offset width : Nat) (reason : String) :
    Nat → Nat → Except (Nat × UnpackError) Nat
  | 0, u => .ok u
  | count + 1, u =>
    if readLen data (offset + u) width ≠ width then
      .error (u, ⟨offset + u, reason, false⟩)
    else tzLoopRead data offset width reason count (u + width)

/-- The transition-time index loop (source lines 942-952 / 1131-1141): one
byte per transition, rejected only when it is strictly greater than
`local_times`; `unpackedsize` is incremented before the check. -/
def tzLoopIdx (data : List Nat) (offset local_times : Nat) :
    Nat → Nat → Except (Nat × UnpackError) Nat
  | 0, u => .ok u
  | count + 1, u =>
    if readLen data (offset + u) 1 ≠ 1 then
      .error (u, ⟨offset + u, "not enough data for transition time", false⟩)
    else
      let b := byteAt data (offset + u)
      if b > local_times then
        .error (u + 1, ⟨offset + u + 1, "invalid index for transition time", false⟩)
      else tzLoopIdx data offset local_times count (u + 1)

/-- The ttinfo loop (source lines 955-986 / 1144-1175): per record a 4-byte
GMT offset, a DST flag that must be 0 or 1, and an abbreviation index that
must not exceed `tz_abbrevation_bytes`. -/
def tzLoopTtinfo (data : List Nat) (offset tz_abbrevation_bytes : Nat) :
    Nat → Nat → Except (Nat × UnpackError) Nat
  | 0, u => .ok u
  | count + 1, u =>
    if readLen data (offset + u) 4 ≠ 4 then
      .error (u, ⟨offset + u, "not enough data for ttinfo GMT offsets", false⟩)
    else
      let u1 := u + 4
      if readLen data (offset + u1) 1 ≠ 1 then
        .error (u1, ⟨offset + u1, "not enough data for ttinfo DST info", false⟩)
      else
        let d := byteAt data (offset + u1)
        if ¬ (d = 0 ∨ d = 1) then
          .error (u1, ⟨offset + u1, "invalid value for ttinfo DST info", false⟩)
        else
          let u2 := u1 + 1
          if readLen data (offset + u2) 1 ≠ 1 then
            .error (u2, ⟨offset + u2, "not enough data for ttinfo abbreviation index", false⟩)
          else
            let a := byteAt data (offset + u2)
            if a > tz_abbrevation_bytes then
              .error (u2, ⟨offset + u2, "invalid value for ttinfo abbreviation index", false⟩)
            else tzLoopTtinfo data offset tz_abbrevation_bytes count (u2 + 1)

/-- The leap-second loop (source lines 997-1010 / 1186-1199): per entry one
`width`-byte and one 4-byte read. -/
def tzLoopLeap (data : List Nat) (offset width : Nat) :
    Nat → Nat → Except (Nat × UnpackError) Nat
  | 0, u => .ok u
  | count + 1, u =>
    if readLen data (offset + u) width ≠ width then
      .error (u, ⟨offset + u, "not enough data for leap seconds", false⟩)
    else
      let u1 := u + width
      if readLen data (offset + u1) 4 ≠ 4 then
        .error (u1, ⟨offset + u1, "not enough data for leap seconds", false⟩)
      else tzLoopLeap data offset width count (u1 + 4)

/-- One TZif data block (source lines 932-1028 / 1121-1217): transition
times of width `w`, transition indices, ttinfo records, abbreviation bytes,
leap entries, standard/wall indicators, UT/local indicators. -/
def tzDataBlock (data : List Nat) (offset w : Nat) (h : TZHeader) (u : Nat) :
    Except (Nat × UnpackError) Nat :=
  match tzLoopRead data offset w "not enough data for transition time" h.transition_times u with
  | .error e => .error e
  | .ok u1 =>
  match tzLoopIdx data offset h.local_times h.transition_times u1 with
  | .error e => .error e
  | .ok u2 =>
  match tzLoopTtinfo data offset h.tz_abbrevation_bytes h.local_times u2 with
  | .error e => .error e
  | .ok u3 =>
  if readLen data (offset + u3) h.tz_abbrevation_bytes ≠ h.tz_abbrevation_bytes then
    .error (u3, ⟨offset + u3, "not enough data for abbreviation bytes", false⟩)
  else
  let u4 := u3 + h.tz_abbrevation_bytes
  match tzLoopLeap data offset w h.leap_cnt u4 with
  | .error e => .error e
  | .ok u5 =>
  match tzLoopRead data offset 1 "not enough data for standard indicator"
      h.standard_indicators u5 with
  | .error e => .error e
  | .ok u6 =>
  tzLoopRead data offset 1 "not enough data for UT indicator" h.ut_indicators u6

/-- Outcome of the POSIX-TZ trailer scan of a v2/v3 TZif file. -/
inductive TZPosixRes where
  | ok (u : Nat)
  | fail (u : Nat) (e : UnpackError)
  | raised
deriving DecidableEq

/-- The POSIX-TZ trailer (source lines 1221-1253): a newline, then a loop
that reads one byte at a time.  The loop body exits on every path: a short
read returns an error, a newline breaks, and for any other byte the guard
`chr(ord(checkbytes)) in string.printable` raises `NameError` because the
module never imports `string` - so at most one byte after the opening
newline is ever examined. -/
def tzPosix (data : List Nat) (offset u : Nat) : TZPosixRes :=
  if readLen data (offset + u) 1 ≠ 1 then
    .fail u ⟨offset + u, "not enough data for POSIX TZ environment style string", false⟩
  else
    if byteAt data (offset + u) ≠ 10 then
      .fail u ⟨offset + u, "wrong value for POSIX TZ environment style string", false⟩
    else
      let u1 := u + 1
      if readLen data (offset + u1) 1 ≠ 1 then
        .fail u1 ⟨offset + u1,
          "enclosing newline for POSIX TZ environment style string not found", false⟩
      else
        if byteAt data (offset + u1) = 10 then .ok (u1 + 1)
        else .raised

/-- Embedding of `unpackTimeZone` (source lines 860-1268), under Python
semantics: the result is either the returned tuple or an uncaught
exception. -/
def unpackTimeZone (data : List Nat) (offset : Nat) (unpackdir : String) : PyResult :=
  let filesize := data.length
  if filesize - offset < 44 then
    .ret ⟨false, 0, [], [], some ⟨offset, "not enough bytes", false⟩⟩
  else
    match tzHeader data offset false 0 0 with
    | .error (u, e) => .ret ⟨false, u, [], [], some e⟩
    | .ok h1 =>
      match tzDataBlock data offset 4 h1 h1.u with
      | .error (u, e) => .ret ⟨false, u, [], [], some e⟩
      | .ok u2 =>
        if h1.version = 0 then
          if offset = 0 ∧ u2 = filesize then
            .ret ⟨true, u2, [], ["resource", "timezone"], none⟩
          else
            .ret ⟨true, u2,
              [(pjoin unpackdir "unpacked-from-timezone", ["timezone", "resource", "unpacked"])],
              [], none⟩
        else
          if offset + u2 + 44 > filesize then
            .ret ⟨false, u2, [], [],
              some ⟨offset + u2, "not enough data for version 2 timezone header", false⟩⟩
          else
            match tzHeader data offset true h1.version u2 with
            | .error (u, e) => .ret ⟨false, u, [], [], some e⟩
            | .ok h2 =>
              match tzDataBlock data offset 8 h2 h2.u with
              | .error (u, e) => .ret ⟨false, u, [], [], some e⟩
              | .ok u3 =>
                match tzPosix data offset u3 with
                | .fail u e => .ret ⟨false, u, [], [], some e⟩
                | .raised => .raised "NameError: name string is not defined"
                | .ok u4 =>
                  if offset = 0 ∧ u4 = filesize then
                    .ret ⟨true, u4, [], ["resource", "timezone"], none⟩
                  else
                    .ret ⟨true, u4,
                      [(pjoin unpackdir "unpacked-from-timezone",
                        ["timezone", "resource", "unpacked"])], [], none⟩

/-- A minimal 50-byte TZif v0 file: all counts zero except `typecnt = 1`,
followed by the single 6-byte ttinfo record. -/
def tzV0Whole : List Nat :=
  [84, 90, 105, 102, 0] ++ List.replicate 15 0 ++
  List.replicate 16 0 ++ [0, 0, 0, 1] ++ [0, 0, 0, 0] ++
  List.replicate 6 0

/-- A 55-byte TZif v0 file with `timecnt = 1`, `typecnt = 1` whose single
transition-time index byte equals `typecnt`. -/
def tzIdxEq : List Nat :=
  [84, 90, 105, 102, 0] ++ List.replicate 15 0 ++
  List.replicate 12 0 ++ [0, 0, 0, 1] ++ [0, 0, 0, 1] ++ [0, 0, 0, 0] ++
  [0, 0, 0, 0, 1] ++ List.replicate 6 0

/-- A 102-byte TZif v2 file (both headers with `typecnt = 1`, all other
counts zero) whose POSIX-TZ trailer is `\n` followed by the byte `X`. -/
def tzV2Raise : List Nat :=
  [84, 90, 105, 102, 0x32] ++ List.replicate 15 0 ++
  List.replicate 12 0 ++ [0, 0, 0, 0] ++ [0, 0, 0, 1] ++ [0, 0, 0, 0] ++
  List.replicate 6 0 ++
  [84, 90, 105, 102, 0x32] ++ List.replicate 15 0 ++
  List.replicate 12 0 ++ [0, 0, 0, 0] ++ [0, 0, 0, 1] ++ [0, 0, 0, 0] ++
  List.replicate 6 0 ++
  [10, 88]

/-- One observation of the streaming tar reader inside `unpackTar`'s loop.

Modelled from the spec (section 4.7): the reader (Python's `tarfile` module,
an external library) yields successive entries, each with its kind flags and
the reader's position after extracting it, relative to the base offset; the
end of the list models `next()` returning `None`, and `err` models an
exception from `next()`/`extract`.  On a window that holds no readable entry
(for instance NUL end-of-archive blocks) the reader yields no entries. -/
inductive TarStep where
  | entry (name : String) (isdev isreg isdir issym : Bool) (posAfter : Nat)
  | err (msg : String)
deriving DecidableEq

/-- The entry loop of `unpackTar` (source lines 1305-1351): returns the
`unpackedsize` tracked inside the loop, the accumulated
`unpackedfilesandlabels`, the `tarunpacked` flag and the error dict set on a
failed iteration. -/
def tarLoop (unpackdir : String) (offset : Nat) :
    List TarStep → Nat → List (String × List String) → Bool →
    Nat × List (String × List String) × Bool × Option UnpackError
  | [], u, files, unp => (u, files, unp, none)
  | .err m :: _, u, files, unp => (u, files, unp, some ⟨offset + u, m, false⟩)
  | .entry name isdev isreg isdir issym posAfter :: rest, u, files, unp =>
    if isdev then tarLoop unpackdir offset rest u files unp
    else
      let files2 :=
        if isreg ∧ ¬ isdir then files ++ [(pjoin unpackdir name, [])]
        else if issym then files ++ [(pjoin unpackdir name, ["symbolic link"])]
        else files
      tarLoop unpackdir offset rest posAfter files2 true

/-- The trailing NUL-block scan of `unpackTar` (source lines 1375-1382):
consume 512-byte blocks of zeros, stopping at the first short read or
non-zero block.  Returns the number of extra bytes consumed. -/
def tarPad (data : List Nat) : Nat → Nat → Nat
  | 0, _ => 0
  | fuel + 1, pos =>
    if pos + 512 ≤ data.length ∧ readBytes data pos 512 = List.replicate 512 0 then
      512 + tarPad data fuel (pos + 512)
    else 0

/-- Embedding of `unpackTar` (source lines 1272-1387).  `steps` is the
observation of the external tar reader (see `TarStep`) and `finalpos` the
reader's post-iteration position relative to `offset`
(`checkfile.tell() - offset`, source line 1363).  When nothing was unpacked
the source returns `filesize` - the whole host file size, not the window
size - as the unpacked size (line 1358). -/
def unpackTar (steps : List TarStep) (finalpos : Nat) (data : List Nat) (offset : Nat)
    (unpackdir : String) : UnpackResult :=
  let filesize := data.length
  match tarLoop unpackdir offset steps 0 [] false with
  | (_, files, unp, errinfo) =>
    if ¬ unp then
      ⟨false, filesize, files, [], some ⟨offset, "Not a valid tar file", false⟩⟩
    else
      let pad := if finalpos % 512 = 0 then tarPad data (data.length / 512 + 1) (offset + finalpos)
                 else 0
      let u := finalpos + pad
      ⟨true, u, files, if offset = 0 ∧ u = filesize then ["tar", "archive"] else [], errinfo⟩

/-- A 1025-byte file: one arbitrary byte followed by 1024 NUL bytes (two
end-of-archive blocks when read as a tar starting at offset 1). -/
def tarZeroBlocks : List Nat := 65 :: List.replicate 1024 0

/-- Second half of `unpackSquashfs` from the size sanity check on (source
lines 1532-1593).  `toolExit` is the exit code of the external `unsquashfs`
subprocess and `walked` the files found under the unpack directory after the
move - both modelled from the spec (section 4.8).  Note the success return
reuses the error dict set at line 1592. -/
def squashfsFinish (toolExit : Nat) (walked : List String) (data : List Nat)
    (offset squashfssize : Nat) : PyResult :=
  if offset + squashfssize > data.length then
    .ret ⟨false, 0, [], [], some ⟨offset, "file system cannot extend past file", false⟩⟩
  else if toolExit ≠ 0 then
    .ret ⟨false, 0, [], [], some ⟨offset, "Not a valid squashfs file", false⟩⟩
  else
    .ret ⟨true, squashfssize, walked.map (fun f => (f, [])), [],
      some ⟨offset, "Not a valid Squashfs", false⟩⟩

/-- Embedding of `unpackSquashfs` (source lines 1449-1593).  `avail` models
`shutil.which('unsquashfs')`.  For `majorversion = 1` none of the branches
at lines 1497-1529 assigns `squashfssize`, so its use at line 1532 raises
`NameError`. -/
def unpackSquashfs (avail : Bool) (toolExit : Nat) (walked : List String)
    (data : List Nat) (offset : Nat) : PyResult :=
  if ¬ avail then
    .ret ⟨false, 0, [], [], some ⟨offset, "unsquashfs program not found", false⟩⟩
  else if data.length - offset < 30 then
    .ret ⟨false, 0, [], [], some ⟨offset, "not enough data", false⟩⟩
  else
    let bigendian := readBytes data offset 4 ≠ [104, 115, 113, 115]
    let majorversion :=
      if bigendian then intFromBytesBE (readBytes data (offset + 28) 2)
      else intFromBytesLE (readBytes data (offset + 28) 2)
    if majorversion = 0 ∨ majorversion > 4 then
      .ret ⟨false, 0, [], [], some ⟨offset, "invalid squashfs version", false⟩⟩
    else if majorversion = 4 then
      if readLen data (offset + 40) 8 ≠ 8 then
        .ret ⟨false, 0, [], [], some ⟨offset, "not enough data to read size", false⟩⟩
      else
        squashfsFinish toolExit walked data offset
          (if bigendian then intFromBytesBE (readBytes data (offset + 40) 8)
           else intFromBytesLE (readBytes data (offset + 40) 8))
    else if majorversion = 3 then
      if readLen data (offset + 63) 8 ≠ 8 then
        .ret ⟨false, 0, [], [], some ⟨offset, "not enough data to read size", false⟩⟩
      else
        squashfsFinish toolExit walked data offset
          (if bigendian then intFromBytesBE (readBytes data (offset + 63) 8)
           else intFromBytesLE (readBytes data (offset + 63) 8))
    else if majorversion = 2 then
      if readLen data (offset + 8) 4 ≠ 4 then
        .ret ⟨false, 0, [], [], some ⟨offset, "not enough data to read size", false⟩⟩
      else
        squashfsFinish toolExit walked data offset
          (if bigendian then intFromBytesBE (readBytes data (offset + 8) 4)
           else intFromBytesLE (readBytes data (offset + 8) 4))
    else
      .raised "NameError: name squashfssize is not defined"

/-- A 48-byte little-endian squashfs v4 header whose on-disk size field is
48, so the file system spans exactly the file. -/
def sqData48 : List Nat :=
  [104, 115, 113, 115] ++ List.replicate 24 0 ++ [4, 0] ++ List.replicate 10 0 ++
  [48, 0, 0, 0, 0, 0, 0, 0]

/-- Embedding of `unpackBMP` (source lines 611-701).  `avail` models
`shutil.which('bmptopnm')` and `toolExit` the exit code of the external
`bmptopnm` subprocess fed the first `bmpsize` bytes (spec section 4.8). -/
def unpackBMP (avail : Bool) (toolExit : Nat) (data : List Nat) (offset : Nat)
    (unpackdir : String) : UnpackResult :=
  let filesize := data.length
  if filesize - offset < 26 then
    ⟨false, 0, [], [], some ⟨offset, "File too small (less than 26 bytes", false⟩⟩
  else
    let bmpsize := intFromBytesLE (readBytes data (offset + 2) 4)
    if offset + bmpsize > filesize then
      ⟨false, 0, [], [], some ⟨offset, "not enough data for BMP file", false⟩⟩
    else
      let bmpoffset := intFromBytesLE (readBytes data (offset + 10) 4)
      if offset + bmpoffset > filesize then
        ⟨false, 0, [], [], some ⟨offset, "not enough data for BMP", false⟩⟩
      else
        let dibheadersize := intFromBytesLE (readBytes data (offset + 14) 2)
        if dibheadersize ∉ [12, 64, 16, 40, 52, 56, 108, 124] then
          ⟨false, 0, [], [], some ⟨offset, "invalid DIB header", false⟩⟩
        else if offset + 14 + dibheadersize > filesize then
          ⟨false, 0, [], [], some ⟨offset, "not enough data for DIB header", false⟩⟩
        else if bmpoffset < dibheadersize + 14 then
          ⟨false, 0, [], [], some ⟨offset, "invalid BMP data offset", false⟩⟩
        else if ¬ avail then
          ⟨false, 12, [], [], some ⟨offset + 12, "bmptopnm program not found", false⟩⟩
        else if toolExit ≠ 0 then
          ⟨false, 0, [], [], some ⟨offset, "invalid BMP", false⟩⟩
        else if offset = 0 ∧ filesize = bmpsize then
          ⟨true, filesize, [], ["bmp", "graphics"], none⟩
        else
          ⟨true, bmpsize,
           [(pjoin unpackdir "unpacked.bmp", ["bmp", "graphics", "unpacked"])], [], none⟩

/-- Embedding of `unpackLZMA` (source lines 704-738).  The shared decode
routine `unpackLZMAWrapper` it tail-calls is abstracted as the parameter
`wrapper` (receiving filename, data, offset, unpack directory and the
declared uncompressed size, `-1` for a streamed size), so that theorems can
quantify over it. -/
def unpackLZMA (wrapper : String → List Nat → Nat → String → Int → UnpackResult)
    (filename : String) (data : List Nat) (offset : Nat) (unpackdir : String) :
    UnpackResult :=
  if data.length - offset < 13 then
    ⟨false, 0, [], [], some ⟨offset, "not enough bytes", false⟩⟩
  else
    let checkbytes := readBytes data (offset + 5) 8
    if checkbytes ≠ List.replicate 8 255 then
      let lzmaunpackedsize := intFromBytesLE checkbytes
      if lzmaunpackedsize = 0 then
        ⟨false, 0, [], [], some ⟨offset, "declared size 0", false⟩⟩
      else if lzmaunpackedsize > 274877906944 then
        ⟨false, 0, [], [], some ⟨offset, "declared size too big", false⟩⟩
      else wrapper filename data offset unpackdir (Int.ofNat lzmaunpackedsize)
    else wrapper filename data offset unpackdir (-1)

/-- A 13-byte LZMA header whose declared uncompressed size field is 0. -/
def lzmaSizeZero : List Nat := [93, 0, 0, 0, 1, 0, 0, 0, 0, 0, 0, 0, 0]

/-- The 12-byte RIFF/WAVE file with a zero-length body of the spec's
concrete scenario 1. -/
def wavMin : List Nat := [82, 73, 70, 70, 4, 0, 0, 0, 87, 65, 86, 69]

/-! ## Helper lemmas -/

theorem readBytes_length (d : List Nat) (p n : Nat) :
    (readBytes d p n).length = min n (d.length - p) := by
  simp [readBytes]

/-! ## Claim theorems -/

set_option maxRecDepth 8000 in
/-- C1: the claim states that for every parser and every input, on both the
success and the failure path, `consumed ≤ file_size - base_offset`.  The tar
parser violates it: on the failure path taken when no entry could be
unpacked (source lines 1355-1358) it returns the whole host file size as the
consumed count, which exceeds `file_size - base_offset` whenever
`base_offset > 0`.  Here, on a 1025-byte file whose tar window at offset 1
holds only NUL end-of-archive blocks (so the reader yields no entries), the
parser returns `ok = false` with `consumed = 1025 > 1024 = file_size -
base_offset`. -/
theorem C1_tar_consumed_exceeds_window :
    (unpackTar [] 0 tarZeroBlocks 1 "/out").ok = false ∧
    (unpackTar [] 0 tarZeroBlocks 1 "/out").unpackedsize = 1025 ∧
    tarZeroBlocks.length - 1 < (unpackTar [] 0 tarZeroBlocks 1 "/out").unpackedsize := by
  decide

/-- C2: the claim states that a parser never raises an exception across the
contract and returns every failure as an `{offset, reason, fatal}` value.
The timezone parser violates it: the module never imports `string`, so the
POSIX-TZ character check `chr(ord(checkbytes)) in string.printable` (source
line 1250) raises `NameError` for any v2/v3 TZif file whose POSIX-TZ
trailer holds any byte other than the closing newline.  On the well-formed
102-byte TZif v2 file `tzV2Raise` (trailer `\n` `X`) the parse raises
instead of returning an error value. -/
theorem C2_timezone_uncaught_exception :
    unpackTimeZone tzV2Raise 0 "/out" = .raised "NameError: name string is not defined" := by
  decide

/-- C3: the claim states that when `ok = false` no output file written by
the parser remains on the filesystem.  The gzip parser violates it: on the
`wrong value for ISIZE` failure path (source lines 584-587) it returns
`ok = false` without unlinking the already fully written output file.  On
`gzBadIsize` (a valid one-byte member whose stored ISIZE is 2) the parse
fails with that reason and `/out/unpacked-from-gz`, holding the decompressed
byte, is still present in the returned directory state. -/
theorem C3_gzip_output_left_on_failure :
    (unpackGzip "archive" gzBadIsize 0 "/out").1.ok = false ∧
    (unpackGzip "archive" gzBadIsize 0 "/out").1.error
      = some ⟨24, "wrong value for ISIZE", false⟩ ∧
    fsLookup (unpackGzip "archive" gzBadIsize 0 "/out").2 "/out/unpacked-from-gz"
      = some [65] := by
  decide

/-- C4: the claim states that `ok` and the error field are mutually
exclusive, with an empty error whenever `ok = true`.  The squashfs adapter
violates it: its success return (source lines 1592-1593) carries the
non-empty error dict `{'offset': offset, 'reason': 'Not a valid Squashfs',
'fatal': False}` assigned immediately before returning `True`.  Here on a
valid 48-byte v4 header with the external `unsquashfs` available and
succeeding. -/
theorem C4_squashfs_stale_error_on_success :
    unpackSquashfs true 0 ["/out/a"] sqData48 0
      = .ret ⟨true, 48, [("/out/a", [])], [], some ⟨0, "Not a valid Squashfs", false⟩⟩ := by
  decide

/-- C7: the claim states that each transition-time index byte must be
strictly less than `typecnt`, an index equal to `typecnt` being rejected.
The code only rejects indices strictly greater than `typecnt` (source lines
949 and 1138), so an index byte equal to `typecnt` is accepted: on the
55-byte TZif v0 file `tzIdxEq` with `timecnt = typecnt = 1` whose single
index byte is 1, the parse succeeds. -/
theorem C7_tz_index_equal_typecnt_accepted :
    byteAt tzIdxEq 48 = 1 ∧
    unpackTimeZone tzIdxEq 0 "/out"
      = .ret ⟨true, 55, [], ["resource", "timezone"], none⟩ := by
  decide

set_option maxRecDepth 8000 in
/-- C5 counterexample: the claim exempts only tar, ar and squashfs from
"whole-file success carves nothing".  The gzip parser - not among the
exemptions - succeeds on the whole-file input `gzGood` at offset 0 with
`consumed = file_size`, yet its carved list is not empty: it always emits
the decompressed payload. -/
theorem C5_gzip_wholefile_carves :
    (unpackGzip "archive" gzGood 0 "/out").1.ok = true ∧
    (unpackGzip "archive" gzGood 0 "/out").1.unpackedsize = gzGood.length ∧
    (unpackGzip "archive" gzGood 0 "/out").1.unpackedfilesandlabels
      = [("/out/unpacked-from-gz", [])] := by
  decide

set_option maxRecDepth 8000 in
/-- C8 counterexample: the claim states that an input whose trailer CRC
differs from the computed CRC of the decompressed data yields `ok = false`.
On `gzBadCrc` the stored trailer CRC bytes are zero while the CRC-32 of the
decompressed byte is 0xD3D99E8B, and the parse still succeeds: the source
computes the running CRC (line 548) but never compares it (lines 573-575). -/
theorem C8_gzip_wrong_crc_accepted :
    (unpackGzip "archive" gzBadCrc 0 "/out").1.ok = true ∧
    fsLookup (unpackGzip "archive" gzBadCrc 0 "/out").2 "/out/unpacked-from-gz"
      = some [65] ∧
    intFromBytesLE (readBytes gzBadCrc 16 4) = 0 ∧
    crc32 0 [65] ≠ 0 := by
  decide

/-- C9: for every input whose LZMA header stores an explicit uncompressed
size (the 8 bytes at `[base_offset+5, base_offset+13)` not all 0xff, read
little-endian), the parser returns `ok = false` with the matching reason
when that size is 0 or greater than 274877906944, whatever the shared
decode routine would do - the result does not depend on `wrapper`, so the
shared routine is never entered (source lines 725-737). -/
theorem C9_lzma_preflight_rejects
    (wrapper : String → List Nat → Nat → String → Int → UnpackResult)
    (filename : String) (data : List Nat) (offset : Nat) (unpackdir : String)
    (hlen : 13 ≤ data.length - offset)
    (hexp : readBytes data (offset + 5) 8 ≠ List.replicate 8 255)
    (hsz : intFromBytesLE (readBytes data (offset + 5) 8) = 0 ∨
           intFromBytesLE (readBytes data (offset + 5) 8) > 274877906944) :
    unpackLZMA wrapper filename data offset unpackdir
      = ⟨false, 0, [], [],
         some ⟨offset,
           if intFromBytesLE (readBytes data (offset + 5) 8) = 0 then "declared size 0"
           else "declared size too big", false⟩⟩ := by
  unfold unpackLZMA
  have hexp2 : readBytes data (offset + 5) 8 ≠ [255, 255, 255, 255, 255, 255, 255, 255] := by
    simpa using hexp
  rcases hsz with h0 | hbig
  · simp [Nat.not_lt.mpr hlen, hexp2, h0]
  · have hne : intFromBytesLE (readBytes data (offset + 5) 8) ≠ 0 := by omega
    simp [Nat.not_lt.mpr hlen, hexp2, hne, hbig]

/-- C9 witness: the preflight rejection at the concrete 13-byte header
`lzmaSizeZero` whose declared uncompressed size is 0, for one concrete
wrapper. -/
theorem C9_lzma_preflight_rejects_witness :
    unpackLZMA (fun _ _ _ _ _ => ⟨true, 7, [], [], none⟩) "f" lzmaSizeZero 0 "/out"
      = ⟨false, 0, [], [],
         some ⟨0,
           if intFromBytesLE (readBytes lzmaSizeZero (0 + 5) 8) = 0 then "declared size 0"
           else "declared size too big", false⟩⟩ :=
  C9_lzma_preflight_rejects (fun _ _ _ _ _ => ⟨true, 7, [], [], none⟩) "f" lzmaSizeZero 0
    "/out" (by decide) (by decide) (by decide)

/-- C10: for every input with `file_size - base_offset < 57` the PNG parser
returns `ok = false`, `consumed = 0` and the non-fatal
`File too small (less than 57 bytes` error (the unbalanced parenthesis is
the source's, line 235), before opening or reading the file: the result is
the same for every file content of that length and every image-library
validator. -/
theorem C10_png_min_size_precondition (pil : List Nat → Bool) (data : List Nat)
    (offset : Nat) (unpackdir : String) (h : data.length - offset < 57) :
    unpackPNG pil data offset unpackdir
      = ⟨false, 0, [], [], some ⟨offset, "File too small (less than 57 bytes", false⟩⟩ := by
  unfold unpackPNG
  simp [h]

/-- C10 witness: the empty file at offset 0. -/
theorem C10_png_min_size_precondition_witness :
    unpackPNG (fun _ => false) [] 0 "/out"
      = ⟨false, 0, [], [], some ⟨0, "File too small (less than 57 bytes", false⟩⟩ :=
  C10_png_min_size_precondition (fun _ => false) [] 0 "/out" (by decide)

theorem pngLoop_trace_bound (data : List Nat) (offset : Nat) :
    ∀ fuel pos u idat names acc,
      (∀ ps ∈ acc, ps.2 ≤ data.length - ps.1) →
      ∀ u2 i2 n2 tr,
        pngChunkLoop data offset fuel pos u idat names acc = .success u2 i2 n2 tr →
        ∀ ps ∈ tr, ps.2 ≤ data.length - ps.1 := by
  intro fuel
  induction fuel with
  | zero =>
    intro pos u idat names acc hacc u2 i2 n2 tr h
    simp [pngChunkLoop] at h
  | succ fuel ih =>
    intro pos u idat names acc hacc u2 i2 n2 tr h
    simp only [pngChunkLoop] at h
    by_cases h1 : readLen data pos 4 ≠ 4
    · simp [h1] at h
    · simp only [h1, if_false, ite_false] at h
      by_cases h2 : offset + intFromBytesBE (readBytes data pos 4) > data.length
      · simp [h2] at h
      · simp only [h2, if_false, ite_false] at h
        by_cases h3 : readLen data (pos + 4) (4 + intFromBytesBE (readBytes data pos 4))
            ≠ 4 + intFromBytesBE (readBytes data pos 4)
        · simp [h3] at h
        · simp only [h3, if_false, ite_false] at h
          -- the chunk at `pos` fits: its declared size is bounded
          have hbound : intFromBytesBE (readBytes data pos 4) ≤ data.length - pos := by
            have h3eq : min (4 + intFromBytesBE (readBytes data pos 4))
                (data.length - (pos + 4)) = 4 + intFromBytesBE (readBytes data pos 4) := by
              simpa [readLen] using h3
            have := min_eq_left_iff.mp h3eq
            omega
          have haccx : ∀ ps ∈ acc ++ [(pos, intFromBytesBE (readBytes data pos 4))],
              ps.2 ≤ data.length - ps.1 := by
            intro ps hps
            rcases List.mem_append.mp hps with hl | hr
            · exact hacc ps hl
            · simp at hr
              simp [hr, hbound]
          by_cases h4 : crc32 0 (readBytes data (pos + 4) (4 + intFromBytesBE (readBytes data pos 4)))
              ≠ intFromBytesBE (readBytes data (pos + 8 + intFromBytesBE (readBytes data pos 4)) 4)
          · simp [h4] at h
          · simp only [h4, if_false, ite_false] at h
            by_cases h5 : (readBytes data (pos + 4) (4 + intFromBytesBE (readBytes data pos 4))).take 4
                = [73, 69, 78, 68]
            · simp only [h5, if_true, ite_true] at h
              cases h
              exact haccx
            · simp only [h5, if_false, ite_false] at h
              exact ih _ _ _ _ _ haccx _ _ _ _ h

theorem png_ok_loop_success (pil : List Nat → Bool) (data : List Nat) (offset : Nat)
    (unpackdir : String) (r : UnpackResult)
    (hr : unpackPNG pil data offset unpackdir = r) (hok : r.ok = true) :
    ∃ u2 i2 n2 tr, pngChunksOf data offset = .success u2 i2 n2 tr := by
  rcases hE : pngChunksOf data offset with ⟨eo, reason, tr⟩ | ⟨u2, i2, n2, tr⟩
  · exfalso
    unfold unpackPNG at hr
    rw [hE] at hr
    dsimp only at hr
    split_ifs at hr <;> (subst hr; simp at hok)
  · exact ⟨u2, i2, n2, tr, rfl⟩

/-- C6: in the PNG parser, for every chunk after IHDR, success implies that
the chunk's declared size satisfies `size ≤ file_size - position`, where
`position` is the absolute offset of the chunk's size field: every entry of
the chunk trace of a successful parse is so bounded (equivalently, a chunk
whose data would extend past end of file makes the parser return
`ok = false`; the loop aborts on the short read at source lines 286-291). -/
theorem C6_png_chunk_size_bounded (pil : List Nat → Bool) (data : List Nat)
    (offset : Nat) (unpackdir : String) (r : UnpackResult)
    (hr : unpackPNG pil data offset unpackdir = r) (hok : r.ok = true) :
    (pngTrace (pngChunksOf data offset)).all
      (fun ps => decide (ps.2 ≤ data.length - ps.1)) = true := by
  rw [List.all_eq_true]
  intro ps hps
  obtain ⟨u2, i2, n2, tr, heq⟩ := png_ok_loop_success pil data offset unpackdir r hr hok
  have htr : ∀ q ∈ tr, q.2 ≤ data.length - q.1 :=
    pngLoop_trace_bound data offset (data.length + 2) (offset + 33) 33 false [] []
      (by simp) u2 i2 n2 tr (by simpa [pngChunksOf] using heq)
  have hmem : ps ∈ tr := by
    rw [heq] at hps
    simpa [pngTrace] using hps
  exact decide_eq_true (htr ps hmem)

set_option maxRecDepth 8000 in
/-- C6 witness: the minimal 57-byte PNG parses successfully and every chunk
of its trace (IDAT at 33, IEND at 45, both of size 0) is bounded. -/
theorem C6_png_chunk_size_bounded_witness :
    (pngTrace (pngChunksOf pngMin 0)).all
      (fun ps => decide (ps.2 ≤ pngMin.length - ps.1)) = true :=
  C6_png_chunk_size_bounded (fun _ => true) pngMin 0 "/out"
    ⟨true, 57, [], ["png", "graphics"], none⟩ (by decide) (by decide)

theorem riff_wholefile_nocarve (d : List Nat) (o : Nat) (ud : String)
    (v : List (List Nat)) (an : String) (ah : List Nat) (r : RiffResult)
    (hr : unpackRIFF d o ud v an ah = r) (hok : r.ok = true) (hoff : o = 0)
    (hsz : r.unpackedsize = d.length) : r.unpackedfiles = [] := by
  subst hoff
  unfold unpackRIFF at hr
  dsimp only at hr
  repeat' split at hr
  all_goals (subst hr; simp_all)

theorem wav_wholefile_nocarve (d : List Nat) (o : Nat) (ud : String) (r : UnpackResult)
    (hr : unpackWAV d o ud = r) (hok : r.ok = true) (hoff : o = 0)
    (hsz : r.unpackedsize = d.length) : r.unpackedfilesandlabels = [] := by
  unfold unpackWAV at hr
  dsimp only at hr
  by_cases hA : (unpackRIFF d o ud wavFourcc "WAV" [87, 65, 86, 69]).ok = true
  · rw [if_pos hA] at hr
    subst hr
    have hfiles := riff_wholefile_nocarve d o ud wavFourcc "WAV" [87, 65, 86, 69] _ rfl hA
      hoff (by simpa using hsz)
    simp [hfiles]
  · rw [if_neg hA] at hr
    subst hr
    simp_all

theorem png_wholefile_nocarve (pil : List Nat → Bool) (d : List Nat) (o : Nat)
    (ud : String) (r : UnpackResult)
    (hr : unpackPNG pil d o ud = r) (hok : r.ok = true) (hoff : o = 0)
    (hsz : r.unpackedsize = d.length) : r.unpackedfilesandlabels = [] := by
  subst hoff
  unfold unpackPNG at hr
  dsimp only at hr
  repeat' split at hr
  all_goals (subst hr; simp_all)

theorem tz_wholefile_nocarve (d : List Nat) (o : Nat) (ud : String) (r : UnpackResult)
    (hr : unpackTimeZone d o ud = .ret r) (hok : r.ok = true) (hoff : o = 0)
    (hsz : r.unpackedsize = d.length) : r.unpackedfilesandlabels = [] := by
  subst hoff
  unfold unpackTimeZone at hr
  dsimp only at hr
  repeat' split at hr
  all_goals (try (injection hr with hinj; subst hinj))
  all_goals simp_all

theorem bmp_wholefile_nocarve (avail : Bool) (toolExit : Nat) (d : List Nat) (o : Nat)
    (ud : String) (r : UnpackResult)
    (hr : unpackBMP avail toolExit d o ud = r) (hok : r.ok = true) (hoff : o = 0)
    (hsz : r.unpackedsize = d.length) : r.unpackedfilesandlabels = [] := by
  subst hoff
  unfold unpackBMP at hr
  dsimp only at hr
  repeat' split at hr
  all_goals (subst hr; simp_all)

theorem add8sub4 (a b : Nat) : a + (b + 8) - 4 = a + b + 4 := by omega

theorem gzip_ok_shape (f : String) (d : List Nat) (o : Nat) (ud : String)
    (p : UnpackResult × FS) (hr : unpackGzip f d o ud = p) (hok : p.1.ok = true) :
    p.1.unpackedfilesandlabels = [((p.2.headD ("", [])).1, [])] ∧
    p.2.length = 1 ∧
    intFromBytesLE (readBytes d (o + p.1.unpackedsize - 4) 4)
      = (p.2.headD ("", [])).2.length % 2 ^ 32 := by
  unfold unpackGzip gzipFinish at hr
  dsimp only at hr
  repeat' split at hr
  all_goals (subst hr; simp_all)
  all_goals (rw [add8sub4]; assumption)

/-- C5 (amended): for the RIFF engine and its WAV wrapper (likewise
WebP/ANI), for PNG, for TZif and for BMP, a success with `base_offset = 0`
and `consumed = file_size` yields an empty carved list; the decompressors
gzip, LZMA and XZ are further exceptions alongside tar/ar/squashfs: they
always emit the decoded payload as an output file (shown here for gzip, the
counterexample to the claim as stated: its success path appends the output
file unconditionally, source line 602). -/
theorem C5_wholefile_no_carve :
    (∀ d o ud v an ah (r : RiffResult), unpackRIFF d o ud v an ah = r → r.ok = true →
       o = 0 → r.unpackedsize = d.length → r.unpackedfiles = []) ∧
    (∀ d o ud, (unpackWAV d o ud).ok = true → o = 0 →
       (unpackWAV d o ud).unpackedsize = d.length →
       (unpackWAV d o ud).unpackedfilesandlabels = []) ∧
    (∀ pil d o ud, (unpackPNG pil d o ud).ok = true → o = 0 →
       (unpackPNG pil d o ud).unpackedsize = d.length →
       (unpackPNG pil d o ud).unpackedfilesandlabels = []) ∧
    (∀ d o ud (r : UnpackResult), unpackTimeZone d o ud = .ret r → r.ok = true →
       o = 0 → r.unpackedsize = d.length → r.unpackedfilesandlabels = []) ∧
    (∀ avail toolExit d o ud, (unpackBMP avail toolExit d o ud).ok = true → o = 0 →
       (unpackBMP avail toolExit d o ud).unpackedsize = d.length →
       (unpackBMP avail toolExit d o ud).unpackedfilesandlabels = []) ∧
    (∀ f d o ud, (unpackGzip f d o ud).1.ok = true →
       (unpackGzip f d o ud).1.unpackedfilesandlabels ≠ []) := by
  refine ⟨?_, ?_, ?_, ?_, ?_, ?_⟩
  · exact fun d o ud v an ah r hr hok hoff hsz =>
      riff_wholefile_nocarve d o ud v an ah r hr hok hoff hsz
  · exact fun d o ud hok hoff hsz =>
      wav_wholefile_nocarve d o ud _ rfl hok hoff hsz
  · exact fun pil d o ud hok hoff hsz =>
      png_wholefile_nocarve pil d o ud _ rfl hok hoff hsz
  · exact fun d o ud r hr hok hoff hsz =>
      tz_wholefile_nocarve d o ud r hr hok hoff hsz
  · exact fun avail toolExit d o ud hok hoff hsz =>
      bmp_wholefile_nocarve avail toolExit d o ud _ rfl hok hoff hsz
  · intro f d o ud hok
    have h := (gzip_ok_shape f d o ud _ rfl hok).1
    simp [h]

/-- C5 witness: the 12-byte whole-file RIFF/WAVE input of the spec's
concrete scenario 1, carving nothing. -/
theorem C5_wholefile_no_carve_witness :
    (unpackWAV wavMin 0 "/out").unpackedfilesandlabels = [] :=
  C5_wholefile_no_carve.2.1 wavMin 0 "/out" (by decide) rfl (by decide)

/-- C8 (amended): on every input the gzip parser accepts, the stored ISIZE
(the last 4 bytes it consumed, read little-endian) equals the decompressed
output size modulo 2^32; the trailer CRC, though read and though a running
CRC-32 of the decoded stream is computed, is never compared, so a wrong
trailer CRC with a correct ISIZE still yields `ok = true` (see the
counterexample). -/
theorem C8_gzip_isize_validated (f : String) (d : List Nat) (o : Nat) (ud : String)
    (p : UnpackResult × FS) (hr : unpackGzip f d o ud = p) (hok : p.1.ok = true) :
    p.2.length = 1 ∧
    intFromBytesLE (readBytes d (o + p.1.unpackedsize - 4) 4)
      = (p.2.headD ("", [])).2.length % 2 ^ 32 :=
  ⟨(gzip_ok_shape f d o ud p hr hok).2.1, (gzip_ok_shape f d o ud p hr hok).2.2⟩

set_option maxRecDepth 8000 in
/-- C8 witness: the valid one-byte gzip member `gzGood`: the stored ISIZE 1
equals the size of the written output `[65]` modulo 2^32. -/
theorem C8_gzip_isize_validated_witness :
    (unpackGzip "archive" gzGood 0 "/out").2.length = 1 ∧
    intFromBytesLE (readBytes gzGood
        (0 + (unpackGzip "archive" gzGood 0 "/out").1.unpackedsize - 4) 4)
      = (((unpackGzip "archive" gzGood 0 "/out").2.headD ("", [])).2.length) % 2 ^ 32 :=
  C8_gzip_isize_validated "archive" gzGood 0 "/out" _ rfl (by decide)
